import Mathlib

/-!
Shallow embedding of the TenderScrape job dispatch and deduplication engine
(`src/job_dispatcher.py`, `src/tender_utils.py`) together with theorems that
settle the specification claims.

Modelling conventions:
* Python dicts of known shape become structures; values read through
  `dict.get(k, default)` become `Option` fields read through `getD`.
* A tender's `id` is kept as the string form `str(tender.get("id", ""))`; the
  empty string stands for a missing identity (this identifies the two Python
  truthiness tests `if tender_id` and `if t.get("id")`, which differ only for
  Python-falsy non-string ids such as the integer 0).
* Wall-clock timestamps that the code stores for display only (`first_seen`,
  `last_sent`, `last_run_start`, durations) are omitted: no claim reads them.
* File I/O becomes explicit state passing over a `World` value; file contents
  that may fail to parse become inductives with an `unparsable` case.
-/

namespace TenderScrape

/-! ## Python datetimes (naive and timezone-aware values, Python comparison) -/

/-- A Python `datetime.datetime` value.  `tzoffset = some m` models an aware
datetime with a fixed UTC offset of `m` minutes; `none` models a naive one. -/
structure PyDateTime where
  year : Nat
  month : Nat
  day : Nat
  hour : Nat
  minute : Nat
  second : Nat
  tzoffset : Option Int
deriving Repr, DecidableEq

/-- Monotone flattening of the calendar fields (months < 13, days < 32), used
to compare two datetimes field-by-field the way Python compares naive ones. -/
def naiveKey (d : PyDateTime) : Nat :=
  ((((d.year * 13 + d.month) * 32 + d.day) * 24 + d.hour) * 60 + d.minute) * 60 + d.second

/-- Absolute timeline position of an aware datetime (offset subtracted). -/
def awareKey (d : PyDateTime) : Int :=
  (naiveKey d : Int) - (d.tzoffset.getD 0) * 60

/-- Python `a >= b` on datetimes: comparing a naive with an aware value raises
`TypeError`, modelled as `none`; otherwise the comparison result. -/
def pyGe (a b : PyDateTime) : Option Bool :=
  match a.tzoffset, b.tzoffset with
  | none, none => some (decide (naiveKey b ≤ naiveKey a))
  | some _, some _ => some (decide (awareKey b ≤ awareKey a))
  | _, _ => none

/-! ## Date-string parsing (`is_tender_active`'s three formats)

`datetime.strptime` / `datetime.fromisoformat` are modelled on zero-padded
inputs, the canonical form the upstream source emits; the model validates the
calendar ranges exactly as Python does (month 1–12, day within the month,
leap years, year 1–9999, hour/minute/second ranges). -/

def digitVal (c : Char) : Option Nat :=
  if c.isDigit then some (c.toNat - 48) else none

def parse2 (a b : Char) : Option Nat := do
  let x ← digitVal a
  let y ← digitVal b
  pure (10 * x + y)

def parse4 (a b c d : Char) : Option Nat := do
  let x ← parse2 a b
  let y ← parse2 c d
  pure (100 * x + y)

def isLeapYear (y : Nat) : Bool :=
  (y % 4 == 0 && y % 100 != 0) || y % 400 == 0

def daysInMonth (y m : Nat) : Nat :=
  if m = 2 then (if isLeapYear y then 29 else 28)
  else if m = 4 ∨ m = 6 ∨ m = 9 ∨ m = 11 then 30
  else 31

/-- Year-month-day with Python's calendar validation. -/
def mkYmd (y mo d : Nat) : Option (Nat × Nat × Nat) :=
  if 1 ≤ y ∧ y ≤ 9999 ∧ 1 ≤ mo ∧ mo ≤ 12 ∧ 1 ≤ d ∧ d ≤ daysInMonth y mo then
    some (y, mo, d)
  else none

def mkHms (h mi s : Nat) : Option (Nat × Nat × Nat) :=
  if h ≤ 23 ∧ mi ≤ 59 ∧ s ≤ 59 then some (h, mi, s) else none

/-- `"YYYY-MM-DD"` (the `%Y-%m-%d` branch). -/
def parseYmd : List Char → Option (Nat × Nat × Nat)
  | [y1, y2, y3, y4, '-', m1, m2, '-', d1, d2] => do
    let y ← parse4 y1 y2 y3 y4
    let mo ← parse2 m1 m2
    let d ← parse2 d1 d2
    mkYmd y mo d
  | _ => none

/-- `"HH:MM:SS"`. -/
def parseHms : List Char → Option (Nat × Nat × Nat)
  | [h1, h2, ':', i1, i2, ':', s1, s2] => do
    let h ← parse2 h1 h2
    let i ← parse2 i1 i2
    let s ← parse2 s1 s2
    mkHms h i s
  | _ => none

/-- A `±HH:MM` UTC offset suffix, in minutes. -/
def parseOffset : List Char → Option Int
  | [sign, h1, h2, ':', m1, m2] => do
    let h ← parse2 h1 h2
    let m ← parse2 m1 m2
    if h ≤ 23 ∧ m ≤ 59 then
      if sign = '+' then some ((h * 60 + m : Nat) : Int)
      else if sign = '-' then some (-((h * 60 + m : Nat) : Int))
      else none
    else none
  | _ => none

/-- `datetime.fromisoformat` on `"YYYY-MM-DDTHH:MM:SS[±HH:MM]"`; a present
offset yields an aware datetime. -/
def parseIsoChars : List Char → Option PyDateTime
  | y1 :: y2 :: y3 :: y4 :: '-' :: m1 :: m2 :: '-' :: d1 :: d2 :: 'T' ::
      h1 :: h2 :: ':' :: i1 :: i2 :: ':' :: s1 :: s2 :: off => do
    let (y, mo, d) ← parseYmd [y1, y2, y3, y4, '-', m1, m2, '-', d1, d2]
    let (h, i, s) ← parseHms [h1, h2, ':', i1, i2, ':', s1, s2]
    match off with
    | [] => pure ⟨y, mo, d, h, i, s, none⟩
    | _ => do
      let o ← parseOffset off
      pure ⟨y, mo, d, h, i, s, some o⟩
  | _ => none

/-- `datetime.strptime(s, "%Y-%m-%d %H:%M:%S")` (always naive). -/
def parseYmdHms : List Char → Option PyDateTime
  | y1 :: y2 :: y3 :: y4 :: '-' :: m1 :: m2 :: '-' :: d1 :: d2 :: ' ' :: rest => do
    let (y, mo, d) ← parseYmd [y1, y2, y3, y4, '-', m1, m2, '-', d1, d2]
    let (h, i, s) ← parseHms rest
    pure ⟨y, mo, d, h, i, s, none⟩
  | _ => none

/-- `datetime.strptime(s, "%Y-%m-%d")` (always naive, midnight). -/
def parseYmdOnly (l : List Char) : Option PyDateTime :=
  (parseYmd l).map fun (y, mo, d) => ⟨y, mo, d, 0, 0, 0, none⟩

/-- `close_at_str.replace("Z", "+00:00")` (every `Z` replaced). -/
def replaceZ : List Char → List Char
  | [] => []
  | 'Z' :: rest => '+' :: '0' :: '0' :: ':' :: '0' :: '0' :: replaceZ rest
  | c :: rest => c :: replaceZ rest

/-- The format dispatch inside `is_tender_active` (tender_utils.py lines
58–64): a `T` selects ISO parsing, else a space selects `"%Y-%m-%d %H:%M:%S"`,
else `"%Y-%m-%d"`. -/
def parse_close_at (l : List Char) : Option PyDateTime :=
  if l.contains 'T' then parseIsoChars (replaceZ l)
  else if l.contains ' ' then parseYmdHms l
  else parseYmdOnly l

/-! ## Tender records and the Record Classifier (`tender_utils.py`) -/

/-- The nested `procurement_category` object (when present as a dict);
`title` is `some s` when the `"title"` key is present with value `s`. -/
structure PCat where
  title : Option String
deriving Repr, DecidableEq

/-- A tender record, restricted to the fields the dispatch core reads.
`id` holds `str(tender.get("id", ""))` (so `""` means no identity);
`close_at` holds `tender.get("close_at", "")` (so `""` means absent);
a `procurement_category` key present with a non-dict value behaves like an
absent key in `get_tender_category` and is modelled as `none`. -/
structure Tender where
  id : String
  pcat : Option PCat
  category_name : Option String
  category : Option String
  pcat_id : Option String
  close_at : String
deriving Repr, DecidableEq

/-- `get_tender_category` (tender_utils.py lines 14–30): nested title, then
legacy flat fields, then an id-based placeholder, else `"Unknown"`. -/
def get_tender_category (t : Tender) : String :=
  match t.pcat with
  | some pc => pc.title.getD "Unknown"
  | none =>
    match t.category_name with
    | some c => c
    | none =>
      match t.category with
      | some c => c
      | none =>
        match t.pcat_id with
        | some i => "Category #" ++ i
        | none => "Unknown"

/-- `is_tender_active` (tender_utils.py lines 48–68).  The `try` block covers
both the parse and the `close_date >= reference_date` comparison, so a
`TypeError` from comparing an aware close date with the naive reference is
also caught and yields `true` (`pyGe … = none`, hence `getD true`). -/
def is_tender_active (t : Tender) (reference_date : PyDateTime) : Bool :=
  let s := t.close_at.toList
  if s.isEmpty then true
  else
    match parse_close_at s with
    | none => true
    | some close_date => (pyGe close_date reference_date).getD true

/-! ## The Delivery Ledger (`EmailTracker`, tender_utils.py lines 101–170)

The tracker's `recipients` dict becomes an association list with unique keys;
`first_seen` / `last_sent` timestamps are omitted (no claim reads them).
Python persists `sent_tenders` as `sorted(set(...))`; the model keeps the
deduplicated union — every read of the field goes through `set(...)`, so only
its members matter, not their order. -/

def lookupA {β : Type} (k : String) : List (String × β) → Option β
  | [] => none
  | p :: rest => if p.1 = k then some p.2 else lookupA k rest

/-- Dict update: overwrite the value at `k` when present (keys are unique in
every map the code persists), else append at the end, as Python dicts keep
insertion order. -/
def setAssoc {β : Type} : List (String × β) → String → β → List (String × β)
  | [], k, v => [(k, v)]
  | p :: rest, k, v => if p.1 = k then (k, v) :: rest else p :: setAssoc rest k v

structure RecipientInfo where
  sent_tenders : List String
deriving Repr, DecidableEq

structure EmailTracker where
  recipients : List (String × RecipientInfo)
deriving Repr, DecidableEq

/-- `EmailTracker.get_sent_tenders` (lines 128–130): absent entry ⇒ `∅`. -/
def get_sent_tenders (tr : EmailTracker) (email : String) : List String :=
  match lookupA email tr.recipients with
  | some info => info.sent_tenders
  | none => []

/-- `EmailTracker.is_new_recipient` (lines 152–154). -/
def is_new_recipient (tr : EmailTracker) (email : String) : Bool :=
  (lookupA email tr.recipients).isNone

/-- `EmailTracker.mark_tenders_sent` (lines 138–150): create the entry if
absent, then union the new ids into `sent_tenders`. -/
def mark_tenders_sent (tr : EmailTracker) (email : String) (tender_ids : List String) :
    EmailTracker :=
  let existing := get_sent_tenders tr email
  ⟨setAssoc tr.recipients email ⟨(existing ++ tender_ids).dedup⟩⟩

/-! ## Subscriptions, configuration, and the Subscription Store
(`job_dispatcher.py`) -/

/-- A subscription config as parsed from `configs/<id>.json`.  Optional fields
model possibly-missing dict keys; `classes` models `job.get("classes", [])`. -/
structure RawJob where
  id : Option String
  classes : List String
  recipients : Option (List String)
  schedule : Option String
deriving Repr, DecidableEq

/-- `validate_job_config` (lines 152–155): the three required keys are present
and `job["recipients"]` is truthy (a non-empty list). -/
def validate_job_config (job : RawJob) : Bool :=
  job.id.isSome && job.recipients.isSome && job.schedule.isSome &&
    !(job.recipients.getD []).isEmpty

/-- One persisted subscription file: either its JSON fails to parse, or it
parses to a `RawJob`. -/
inductive ConfigFile
  | unparsable
  | parsed (job : RawJob)
deriving Repr, DecidableEq

/-- `attempt_job_repair` (lines 157–173): rewrite the file with a placeholder
config whose id is the filename stem; if even that write fails, delete the
file (`none`).  The Python placeholder's cosmetic `"interval"` field is not
modelled. -/
def attempt_job_repair (stem : String) (writeFails : Bool) :
    Option (String × ConfigFile) :=
  if writeFails then none
  else some (stem, ConfigFile.parsed
    { id := some stem
      classes := []
      recipients := some ["repair@needed.com"]
      schedule := some "*/30 * * * *" })

/-- `load_job_configs` (lines 135–150) over the config directory, returned as
(accepted jobs, resulting config directory).  A file that parses but fails
validation is only skipped (left on disk unchanged); a file that fails to
parse goes through `attempt_job_repair`. -/
def load_job_configs (files : List (String × ConfigFile)) (writeFails : String → Bool) :
    List RawJob × List (String × ConfigFile) :=
  match files with
  | [] => ([], [])
  | (stem, ConfigFile.parsed job) :: rest =>
    let (jobs, dir) := load_job_configs rest writeFails
    if validate_job_config job then (job :: jobs, (stem, ConfigFile.parsed job) :: dir)
    else (jobs, (stem, ConfigFile.parsed job) :: dir)
  | (stem, ConfigFile.unparsable) :: rest =>
    let (jobs, dir) := load_job_configs rest writeFails
    (jobs, (attempt_job_repair stem (writeFails stem)).toList ++ dir)

/-! ## `filter_data_for_job` (job_dispatcher.py lines 206–260) -/

/-- `filter_data_for_job`, which the source declares as returning
`(tenders, is_new_recipient)`.  Lines 208–214 execute normally (they read the
class set and probe the ledger for new recipients); then line 217,
`config = load_app_config()`, raises
`NameError: name 'load_app_config' is not defined` unconditionally — the name
is neither defined nor imported anywhere in `job_dispatcher.py` (the function
exists only in `dashboard_app.py`, and the dispatcher runs standalone from
cron).  The filtering loop of lines 220–244 and the catch-up branch of lines
246–260 are therefore unreachable, and the function never returns a candidate
set.  The `Except.error` payload is `str(e)` for that `NameError`, which is
what `process_job`'s `except` boundary captures and records. -/
def filter_data_for_job (tracker : EmailTracker) (data : List Tender)
    (job : RawJob) (seen_ids : List String) (ref : PyDateTime) :
    Except String (List Tender × Bool) :=
  let _allowed_classes := job.classes
  let recipients := job.recipients.getD []
  let _has_new_recipients := recipients.any (fun e => is_new_recipient tracker e)
  -- line 217: `config = load_app_config()` → NameError, every call
  Except.error "name 'load_app_config' is not defined"

/-! ## Job status, history, and the persistent world -/

/-- The status snapshot in `status/<job_id>.json`, restricted to the fields
the dispatch core writes (timestamps and durations omitted).
`update_job_status` merges keyword updates into the existing snapshot, so
untouched fields survive across updates. -/
structure JobStatus where
  status : String
  last_run_tenders : Option Nat
  last_run_success : Option Bool
  last_run_error : Option String
  last_run_was_catchup : Option Bool
deriving Repr, DecidableEq

def emptyStatus : JobStatus := ⟨"", none, none, none, none⟩

/-- `update_job_status(job_id, "running", ...)` (line 377). -/
def setRunning (s : JobStatus) : JobStatus := { s with status := "running" }

/-- `update_job_status(job_id, "idle", ..., last_run_tenders=…,
last_run_success=True, last_run_was_catchup=…)` (lines 396–403). -/
def setIdle (s : JobStatus) (tenders : Nat) (catchup : Bool) : JobStatus :=
  { s with status := "idle", last_run_tenders := some tenders,
           last_run_success := some true, last_run_was_catchup := some catchup }

/-- `update_job_status(job_id, "error", ..., last_run_error=…,
last_run_success=False)` (lines 420–425). -/
def setError (s : JobStatus) (msg : String) : JobStatus :=
  { s with status := "error", last_run_error := some msg,
           last_run_success := some false }

/-- One line of `execution_history.jsonl` (timestamp and duration omitted). -/
structure HistoryEntry where
  job_id : String
  success : Bool
  tenders_found : Nat
  error : Option String
deriving Repr, DecidableEq

/-- The persistent state a dispatcher run may touch: the `configs/` directory,
the per-job seen files in `seen/`, the delivery ledger
(`email_tracking.json`), the `status/` directory and the history log. -/
structure World where
  configs : List (String × ConfigFile)
  seen : List (String × List String)
  tracker : EmailTracker
  statuses : List (String × JobStatus)
  history : List HistoryEntry
deriving Repr, DecidableEq

def getStatusIn (statuses : List (String × JobStatus)) (jid : String) : JobStatus :=
  (lookupA jid statuses).getD emptyStatus

/-! ## `send_email` and `process_job` (job_dispatcher.py lines 282–429) -/

/-- `[str(t.get("id", "")) for t in tenders if t.get("id")]` (line 317). -/
def tenderIds (tenders : List Tender) : List String :=
  (tenders.filter (fun t => t.id != "")).map Tender.id

/-- The ledger update `send_email` performs on a 200 response (lines
315–320): every recipient of the job is marked with every sent tender id. -/
def send_email_update (tr : EmailTracker) (recipients : List String)
    (tenders : List Tender) : EmailTracker :=
  recipients.foldl (fun tr email => mark_tenders_sent tr email (tenderIds tenders)) tr

/-- `process_job` (lines 371–429) as a state transition, returning the new
world and the boolean result.

The `try` block's only raise site is the `filter_data_for_job` call at line
383 (every other callee — `update_job_status`, `load_job_seen_cache`,
`send_email`, `save_job_seen_cache`, `log_execution_history` — swallows its
own exceptions internally and cannot raise out of `process_job`), and that
call always raises `NameError`, so the success branch of lines 386–414 is
dead code in the program; it is still embedded as written.  `sendOk` is the
notification sink's verdict: `true` means the API key was configured and the
send returned 200, so the ledger update and save ran. -/
def process_job (w : World) (job : RawJob) (all_data : List Tender)
    (ref : PyDateTime) (sendOk : Bool) : World × Bool :=
  let jid := (job.id).getD ""
  -- line 377: status becomes "running" before anything can fail
  let statuses1 := setAssoc w.statuses jid (setRunning (getStatusIn w.statuses jid))
  -- line 380: load_job_seen_cache (missing or corrupt file ⇒ empty set)
  let seen_ids := (lookupA jid w.seen).getD []
  -- line 383: always lands in the except branch (NameError)
  match filter_data_for_job w.tracker all_data job seen_ids ref with
  | Except.error msg =>
    -- lines 416–429: error status with str(e), failure history line,
    -- seen cache and ledger untouched
    ({ w with
        statuses := setAssoc statuses1 jid (setError (getStatusIn statuses1 jid) msg)
        history := w.history ++ [⟨jid, false, 0, some msg⟩] }, false)
  | Except.ok (fresh_tenders, is_catch_up) =>
    -- lines 386–388: send only when there are fresh tenders
    let tracker2 :=
      if !fresh_tenders.isEmpty && sendOk then
        send_email_update w.tracker (job.recipients.getD []) fresh_tenders
      else w.tracker
    -- lines 390–392: rewrite the seen cache with ALL current tender ids
    let all_current_ids := (tenderIds all_data).dedup
    ({ w with
        seen := setAssoc w.seen jid all_current_ids
        tracker := tracker2
        statuses := setAssoc statuses1 jid
          (setIdle (getStatusIn statuses1 jid) fresh_tenders.length is_catch_up)
        history := w.history ++ [⟨jid, true, fresh_tenders.length, none⟩] }, true)

/-! ## The tick loop, cache loading, and the execution lock
(job_dispatcher.py lines 88–133, 456–516) -/

/-- The cached record source `cache/tender_data.json`. -/
inductive CacheState
  | missing
  | unparsable
  | parsed (data : List Tender)

/-- `load_cache_data` (lines 109–133): missing or corrupt cache ⇒ `None`
(the staleness warning only logs). -/
def load_cache_data : CacheState → Option (List Tender)
  | CacheState.missing => none
  | CacheState.unparsable => none
  | CacheState.parsed data => some data

/-- The per-run inputs that are not persistent state: the cache, the repair
write-failure oracle, the reference time, the cron evaluator (spec §9 directs
treating `croniter_match` as an opaque capability), and the per-job send
oracle keyed by job id. -/
structure RunEnv where
  cache : CacheState
  writeFails : String → Bool
  ref : PyDateTime
  due : RawJob → Bool
  sendOk : String → Bool

/-- The `for job in due_jobs` loop of lines 486–488, also counting
successes. -/
def run_jobs (w : World) (jobs : List RawJob) (data : List Tender)
    (ref : PyDateTime) (sendOk : String → Bool) : World × Nat :=
  match jobs with
  | [] => (w, 0)
  | job :: rest =>
    let r := process_job w job data ref (sendOk ((job.id).getD ""))
    let (w2, n) := run_jobs r.1 rest data ref sendOk
    (w2, (if r.2 then 1 else 0) + n)

/-- The body of `JobDispatcher.run` after the lock is held (lines 463–494).
`if not all_data` treats a missing/corrupt cache (`None`) and an empty record
list identically.  The periodic `cleanup_old_files` housekeeping is outside
every claim and not modelled. -/
def run_core (w : World) (env : RunEnv) : World :=
  match load_cache_data env.cache with
  | none => w
  | some all_data =>
    if all_data.isEmpty then w
    else
      let (jobs, configs2) := load_job_configs w.configs env.writeFails
      let w2 := { w with configs := configs2 }
      if jobs.isEmpty then w2
      else
        let due_jobs := jobs.filter env.due
        if due_jobs.isEmpty then w2
        else (run_jobs w2 due_jobs all_data env.ref env.sendOk).1

/-- The dispatcher's `self.lock_file` field: `noFile` before `acquire_lock`,
`openFile` while the lock is held, `closedFile` once the underlying file
object has been closed (the field is never reset to `None`). -/
inductive HandleState
  | noFile
  | openFile
  | closedFile
deriving Repr, DecidableEq

/-- `acquire_lock` (lines 88–99): `open(LOCK_FILE, "w")` always succeeds;
`flock(LOCK_EX | LOCK_NB)` raises iff another process holds the lock, in
which case the file object is closed and `False` returned. -/
def acquire_lock (lockHeldByOther : Bool) : HandleState × Bool :=
  if lockHeldByOther then (HandleState.closedFile, false)
  else (HandleState.openFile, true)

/-- `release_lock` (lines 101–107) → (new handle state, raised an exception).
With an open handle it unlocks, closes and unlinks; with a handle whose file
object is already closed, `self.lock_file.fileno()` raises
`ValueError: I/O operation on closed file`. -/
def release_lock : HandleState → HandleState × Bool
  | HandleState.noFile => (HandleState.noFile, false)
  | HandleState.openFile => (HandleState.closedFile, false)
  | HandleState.closedFile => (HandleState.closedFile, true)

/-- `JobDispatcher.run` (lines 456–497): on lock failure it returns before
the `try` block; otherwise the body runs and the `finally` releases the lock
(closing the file object, but leaving `self.lock_file` set). -/
def run_dispatcher (lockHeldByOther : Bool) (w : World) (env : RunEnv) :
    World × HandleState :=
  let (handle, got) := acquire_lock lockHeldByOther
  if got then
    let w2 := run_core w env
    (w2, (release_lock handle).1)
  else (w, handle)

/-- `main` (lines 504–513): `run()` inside `try/except Exception`, then a
`finally` that calls `release_lock()` a second time.  Returns the final world
and whether an exception escaped `main` (the `finally` runs outside the
`except` clauses, so anything `release_lock` raises there is uncaught). -/
def main_run (lockHeldByOther : Bool) (w : World) (env : RunEnv) : World × Bool :=
  let (w2, handle) := run_dispatcher lockHeldByOther w env
  (w2, (release_lock handle).2)

/-! ## Helper lemmas -/

theorem lookupA_setAssoc_self {β : Type} (l : List (String × β)) (k : String) (v : β) :
    lookupA k (setAssoc l k v) = some v := by
  induction l with
  | nil => simp [setAssoc, lookupA]
  | cons p rest ih =>
    by_cases h : p.1 = k
    · simp [setAssoc, h, lookupA]
    · simp [setAssoc, h, lookupA, ih]

theorem lookupA_setAssoc_other {β : Type} (l : List (String × β)) (k k' : String)
    (v : β) (hne : k' ≠ k) : lookupA k' (setAssoc l k v) = lookupA k' l := by
  induction l with
  | nil => simp [setAssoc, lookupA, Ne.symm hne]
  | cons p rest ih =>
    by_cases h : p.1 = k
    · subst h
      simp [setAssoc, lookupA, Ne.symm hne, fun hh : p.1 = k' => hne (hh ▸ rfl)]
    · simp [setAssoc, h, lookupA, ih]

theorem get_sent_mark_self (tr : EmailTracker) (email : String) (ids : List String) :
    get_sent_tenders (mark_tenders_sent tr email ids) email =
      (get_sent_tenders tr email ++ ids).dedup := by
  unfold mark_tenders_sent get_sent_tenders
  simp [lookupA_setAssoc_self]

theorem get_sent_mark_other (tr : EmailTracker) (email e : String) (ids : List String)
    (hne : e ≠ email) :
    get_sent_tenders (mark_tenders_sent tr email ids) e = get_sent_tenders tr e := by
  unfold mark_tenders_sent get_sent_tenders
  simp [lookupA_setAssoc_other _ _ _ _ hne]

/-- A single `mark_tenders_sent` call never removes an id from anyone. -/
theorem sent_mono_mark (tr : EmailTracker) (email e x : String) (ids : List String)
    (hx : x ∈ get_sent_tenders tr e) :
    x ∈ get_sent_tenders (mark_tenders_sent tr email ids) e := by
  by_cases h : e = email
  · subst h
    rw [get_sent_mark_self]
    simp [List.mem_dedup]
    exact Or.inl hx
  · rwa [get_sent_mark_other _ _ _ _ h]

/-- Ids already in a recipient's ledger entry survive any sequence of
`mark_tenders_sent` calls. -/
theorem sent_mono_foldl (calls : List (String × List String)) (tr : EmailTracker)
    (e x : String) (hx : x ∈ get_sent_tenders tr e) :
    x ∈ get_sent_tenders
        (calls.foldl (fun t c => mark_tenders_sent t c.1 c.2) tr) e := by
  induction calls generalizing tr with
  | nil => simpa using hx
  | cons c rest ih => exact ih _ (sent_mono_mark _ _ _ _ _ hx)

/-- After folding `mark_tenders_sent … ids` over a recipient list, every
listed recipient's entry contains every id of `ids`. -/
theorem mem_sent_foldl_marks (recips : List String) (tr : EmailTracker)
    (ids : List String) (e x : String) (he : e ∈ recips) (hx : x ∈ ids) :
    x ∈ get_sent_tenders
        (recips.foldl (fun t em => mark_tenders_sent t em ids) tr) e := by
  induction recips generalizing tr with
  | nil => cases he
  | cons r rest ih =>
    rcases List.mem_cons.mp he with h | h
    · subst h
      have hbase : x ∈ get_sent_tenders (mark_tenders_sent tr e ids) e := by
        simp [get_sent_mark_self, List.mem_dedup, hx]
      have hh := sent_mono_foldl (rest.map (fun r => (r, ids)))
        (mark_tenders_sent tr e ids) e x hbase
      rw [List.foldl_map] at hh
      simpa using hh
    · exact ih _ h

theorem mem_tenderIds (data : List Tender) (x : String) :
    x ∈ tenderIds data ↔ x ≠ "" ∧ ∃ t ∈ data, t.id = x := by
  unfold tenderIds
  simp only [List.mem_map, List.mem_filter]
  constructor
  · rintro ⟨t, ⟨ht, hid⟩, rfl⟩
    exact ⟨by simpa using hid, t, ht, rfl⟩
  · rintro ⟨hx, t, ht, rfl⟩
    exact ⟨t, ⟨ht, by simpa using hx⟩, rfl⟩

/-- `process_job` appends exactly one history line, success or failure
(stated over both match branches, though only the error one is reachable). -/
theorem process_job_history (w : World) (job : RawJob) (all_data : List Tender)
    (ref : PyDateTime) (sendOk : Bool) :
    ∃ e, ((process_job w job all_data ref sendOk).1).history
      = w.history ++ [e] := by
  exact ⟨_, rfl⟩

/-! ## Claim theorems -/

/-- **C6** (corrected).  The claim "if `close_at` parses, `is_active` returns
true iff the parsed close date is ≥ the reference time" fails for the spec's
own first format, ISO-8601 *with zone*: parsing yields an aware datetime,
Python raises `TypeError` when comparing it with the naive reference
`datetime.now()`, and the catch-all returns true.  Concretely,
`close_at = "2000-01-01T00:00:00Z"` parses to 2000-01-01 UTC, which is far
before the 2020 reference, yet `is_tender_active` reports the tender
active. -/
theorem c6_counterexample :
    parse_close_at ("2000-01-01T00:00:00Z".toList)
        = some ⟨2000, 1, 1, 0, 0, 0, some 0⟩
    ∧ naiveKey ⟨2000, 1, 1, 0, 0, 0, some 0⟩ < naiveKey ⟨2020, 6, 1, 12, 0, 0, none⟩
    ∧ awareKey ⟨2000, 1, 1, 0, 0, 0, some 0⟩ < awareKey ⟨2020, 6, 1, 12, 0, 0, none⟩
    ∧ is_tender_active ⟨"1", none, none, none, none, "2000-01-01T00:00:00Z"⟩
        ⟨2020, 6, 1, 12, 0, 0, none⟩ = true := by
  exact ⟨by decide, by decide, by decide, by decide⟩

/-- **C6** (amended): against a naive reference time (which
`datetime.now()` always is), `is_tender_active` is true when `close_at` is
absent or unparsable (fail-open); when it parses *without* a zone offset the
result is `close_date ≥ reference`; when it parses *with* a zone offset the
naive/aware comparison raises `TypeError`, which the fail-open handler also
catches, so the record is always active. -/
theorem c6_active_spec (t : Tender) (ref : PyDateTime) (h : ref.tzoffset = none) :
    is_tender_active t ref =
      match parse_close_at t.close_at.toList with
      | none => true
      | some d =>
        match d.tzoffset with
        | none => decide (naiveKey ref ≤ naiveKey d)
        | some _ => true := by
  have hact : is_tender_active t ref =
      (if t.close_at.toList.isEmpty then true
       else
         match parse_close_at t.close_at.toList with
         | none => true
         | some d => (pyGe d ref).getD true) := rfl
  rw [hact]
  by_cases he : t.close_at.toList.isEmpty
  · have hnil : t.close_at.toList = [] := by simpa using he
    rw [if_pos he, hnil]
    rfl
  · rw [if_neg he]
    cases hp : parse_close_at t.close_at.toList with
    | none => rfl
    | some d =>
      cases hd : d.tzoffset with
      | none => simp [pyGe, h, hd]
      | some o => simp [pyGe, h, hd]

theorem c6_active_spec_witness :
    is_tender_active ⟨"1", none, none, none, none, "2030-05-05"⟩
      ⟨2020, 6, 1, 12, 0, 0, none⟩ = true :=
  (c6_active_spec ⟨"1", none, none, none, none, "2030-05-05"⟩
    ⟨2020, 6, 1, 12, 0, 0, none⟩ rfl).trans (by decide)

/-- **C7** (corrected).  Over arbitrary key/value maps the claim "always
returns a non-empty string" fails: a record whose nested
`procurement_category` object carries `"title": ""` makes
`get_tender_category` return the empty string (the `.get("title", "Unknown")`
default only fires when the key is absent). -/
theorem c7_counterexample :
    get_tender_category ⟨"9", some ⟨some ""⟩, none, none, none, ""⟩ = "" := by
  decide

/-- **C7** (amended): `get_tender_category` is total (never raises) and
follows the fallback chain; its result is non-empty provided every *present*
category text field (nested title, `category_name`, `category`) is non-empty
— the id placeholder and the `"Unknown"` defaults are always non-empty. -/
theorem c7_category_nonempty (t : Tender)
    (h1 : ∀ pc, t.pcat = some pc → ∀ s, pc.title = some s → s ≠ "")
    (h2 : ∀ s, t.category_name = some s → s ≠ "")
    (h3 : ∀ s, t.category = some s → s ≠ "") :
    get_tender_category t ≠ "" := by
  unfold get_tender_category
  cases hp : t.pcat with
  | some pc =>
    cases hti : pc.title with
    | some s => simpa [hti] using h1 pc hp s hti
    | none => simp [hti]
  | none =>
    cases hcn : t.category_name with
    | some s => simpa using h2 s hcn
    | none =>
      cases hc : t.category with
      | some s => simpa using h3 s hc
      | none =>
        cases hid : t.pcat_id with
        | some i =>
          intro habs
          have hlen := congrArg String.length habs
          simp [String.length_append] at hlen
          exact absurd hlen.1 (by decide)
        | none => simp

theorem c7_category_nonempty_witness :
    get_tender_category ⟨"1", none, none, none, none, ""⟩ ≠ "" :=
  c7_category_nonempty ⟨"1", none, none, none, none, ""⟩
    (fun _ h => by simp at h) (fun _ h => by simp at h) (fun _ h => by simp at h)

/-- **C8** (confirmed).  One `mark_tenders_sent` call makes the recipient's
ledger entry exactly the union of the previous entry and the ids passed
(duplicates collapse), and the entry is non-decreasing across any sequence of
further `mark_tenders_sent` calls with arbitrary emails and identity lists. -/
theorem c8_ledger_monotone (tr : EmailTracker) (email : String) (ids : List String) :
    (∀ x, x ∈ get_sent_tenders (mark_tenders_sent tr email ids) email ↔
      (x ∈ get_sent_tenders tr email ∨ x ∈ ids))
    ∧ ∀ (calls : List (String × List String)) (x : String),
        x ∈ get_sent_tenders tr email →
        x ∈ get_sent_tenders
            (calls.foldl (fun t c => mark_tenders_sent t c.1 c.2) tr) email := by
  constructor
  · intro x
    rw [get_sent_mark_self]
    simp [List.mem_dedup]
  · intro calls x hx
    exact sent_mono_foldl calls tr email x hx

/-- **C1** (code bug).  The claim describes the regular-branch candidate set
that `filter_data_for_job` is supposed to compute (spec §4.4 step 4), but the
source function never computes any candidate set: its line 217 calls
`load_app_config()`, a name neither defined nor imported in
`job_dispatcher.py`, so every call — for every subscription, record set,
seen-set and reference time — raises `NameError` before the filtering loop
is reached. -/
theorem c1_filter_never_computes (tracker : EmailTracker) (data : List Tender)
    (job : RawJob) (seen_ids : List String) (ref : PyDateTime) :
    filter_data_for_job tracker data job seen_ids ref
      = Except.error "name 'load_app_config' is not defined" := rfl

/-- **C2** (code bug).  The claim's antecedent — "processing completes
without an uncaught exception" — is unsatisfiable in the program: the
`filter_data_for_job` call at line 383 raises `NameError` before the
seen-cache rewrite at lines 390–392, so every `process_job` run takes the
except branch, returns failure, and leaves the seen-set (and the ledger)
exactly as they were.  The rewrite-to-all-current-identities the claim (and
spec §4.4 step 6) describes never executes. -/
theorem c2_seen_never_rewritten (w : World) (job : RawJob) (all_data : List Tender)
    (ref : PyDateTime) (sendOk : Bool) :
    ((process_job w job all_data ref sendOk).1).seen = w.seen
    ∧ ((process_job w job all_data ref sendOk).1).tracker = w.tracker
    ∧ (process_job w job all_data ref sendOk).2 = false :=
  ⟨rfl, rfl, rfl⟩

/-- **C4** (confirmed).  First conjunct: the uncaught exception inside one
job's processing (the `NameError` that `filter_data_for_job` raises on every
call, with its captured text `str(e)`) yields `False` from `process_job`, an
`error` status carrying that text, and an untouched seen-set and ledger —
the prior seen-set survives for the next due tick.  Second conjunct: the
tick loop still appends one history line per due job, so one job's failure
never aborts the processing of the remaining due jobs. -/
theorem c4_error_contained :
    (∀ (w : World) (job : RawJob) (all_data : List Tender)
        (ref : PyDateTime) (sendOk : Bool),
      (process_job w job all_data ref sendOk).2 = false
      ∧ ((process_job w job all_data ref sendOk).1).seen = w.seen
      ∧ ((process_job w job all_data ref sendOk).1).tracker = w.tracker
      ∧ ∃ s, lookupA ((job.id).getD "")
            ((process_job w job all_data ref sendOk).1).statuses
            = some s
          ∧ s.status = "error"
          ∧ s.last_run_error = some "name 'load_app_config' is not defined")
    ∧ ∀ (w : World) (jobs : List RawJob) (data : List Tender)
        (ref : PyDateTime) (sendOk : String → Bool),
        ((run_jobs w jobs data ref sendOk).1).history.length
          = w.history.length + jobs.length := by
  constructor
  · intro w job all_data ref sendOk
    refine ⟨rfl, rfl, rfl,
      setError (setRunning (getStatusIn w.statuses ((job.id).getD "")))
        "name 'load_app_config' is not defined", ?_, rfl, rfl⟩
    unfold process_job
    simp [filter_data_for_job, getStatusIn, lookupA_setAssoc_self]
  · intro w jobs data ref sendOk
    induction jobs generalizing w with
    | nil => simp [run_jobs]
    | cons job rest ih =>
      obtain ⟨e, he⟩ := process_job_history w job data ref
        (sendOk ((job.id).getD ""))
      simp only [run_jobs]
      rw [ih, he]
      simp
      omega

/-- **C3** (confirmed).  On a successful send, `send_email` marks every
candidate identity as sent to *every* recipient of the subscription — the
quantifier ranges over all of `recipients`, long-standing ones included —
so afterwards each recipient's `sent_tenders` contains every candidate id. -/
theorem c3_all_recipients_marked (tr : EmailTracker) (recipients : List String)
    (tenders : List Tender) (e : String) (t : Tender)
    (he : e ∈ recipients) (ht : t ∈ tenders) (hid : t.id ≠ "") :
    t.id ∈ get_sent_tenders (send_email_update tr recipients tenders) e := by
  have hmem : t.id ∈ tenderIds tenders :=
    (mem_tenderIds tenders t.id).mpr ⟨hid, t, ht, rfl⟩
  exact mem_sent_foldl_marks recipients tr (tenderIds tenders) e t.id he hmem

theorem c3_all_recipients_marked_witness :
    "7" ∈ get_sent_tenders
      (send_email_update ⟨[("old@x.com", ⟨["1", "2"]⟩)]⟩
        ["old@x.com", "new@y.com"]
        [⟨"7", none, none, none, none, ""⟩])
      "old@x.com" :=
  c3_all_recipients_marked ⟨[("old@x.com", ⟨["1", "2"]⟩)]⟩
    ["old@x.com", "new@y.com"] [⟨"7", none, none, none, none, ""⟩]
    "old@x.com" ⟨"7", none, none, none, none, ""⟩
    (by decide) (by decide) (by decide)

/-- **C5** (code bug).  A second invocation while the lock is held mutates
none of the persistent state (the world comes back unchanged: configs,
seen-sets, ledger, statuses, history), but it does NOT exit cleanly: after
the contended `acquire_lock` has closed the lock-file object,
`main`'s `finally` calls `release_lock`, whose
`self.lock_file.fileno()` raises `ValueError: I/O operation on closed file`,
and that exception escapes `main` (second component `true`). -/
theorem c5_lock_contention (w : World) (env : RunEnv) :
    main_run true w env = (w, true) := rfl

/-- **C9** (corrected).  The full behavior of the Subscription Store:
`load_job_configs` accepts exactly the parseable, validation-passing
subscriptions, leaves every parseable file on disk unchanged (even when it
fails required-field validation), and routes only *unparsable* files through
`attempt_job_repair` (placeholder rewrite keyed by the filename stem, or
deletion when the rewrite fails). -/
theorem c9_store_behavior (files : List (String × ConfigFile))
    (writeFails : String → Bool) :
    load_job_configs files writeFails =
      (files.filterMap (fun f =>
        match f.2 with
        | ConfigFile.parsed j => if validate_job_config j then some j else none
        | ConfigFile.unparsable => none),
       files.flatMap (fun f =>
        match f.2 with
        | ConfigFile.parsed j => [(f.1, ConfigFile.parsed j)]
        | ConfigFile.unparsable => (attempt_job_repair f.1 (writeFails f.1)).toList))
    ∧ ∀ j ∈ (load_job_configs files writeFails).1, validate_job_config j = true := by
  have heq : load_job_configs files writeFails =
      (files.filterMap (fun f =>
        match f.2 with
        | ConfigFile.parsed j => if validate_job_config j then some j else none
        | ConfigFile.unparsable => none),
       files.flatMap (fun f =>
        match f.2 with
        | ConfigFile.parsed j => [(f.1, ConfigFile.parsed j)]
        | ConfigFile.unparsable => (attempt_job_repair f.1 (writeFails f.1)).toList)) := by
    induction files with
    | nil => rfl
    | cons f rest ih =>
      obtain ⟨stem, cf⟩ := f
      cases cf with
      | parsed j =>
        by_cases hv : validate_job_config j
        · simp [load_job_configs, ih, hv]
        · simp [load_job_configs, ih, hv]
      | unparsable => simp [load_job_configs, ih]
  refine ⟨heq, fun j hj => ?_⟩
  rw [heq] at hj
  simp only [List.mem_filterMap] at hj
  obtain ⟨f, _, hf⟩ := hj
  rcases hcf : f.2 with _ | j'
  · simp [hcf] at hf
  · rw [hcf] at hf
    by_cases hv : validate_job_config j'
    · simp [hv] at hf
      exact hf ▸ hv
    · simp [hv] at hf

/-- **C9** counterexample to the claim as stated: a subscription file that
*parses* but fails required-field validation (empty `recipients`) is neither
auto-repaired nor deleted — `load_job_configs` leaves the file on disk with
its original content and merely excludes it from the tick's job list. -/
theorem c9_counterexample :
    load_job_configs
      [("ab12cd34", ConfigFile.parsed
          ⟨some "ab12cd34", [], some [], some "*/5 * * * *"⟩)]
      (fun _ => false)
    = ([], [("ab12cd34", ConfigFile.parsed
          ⟨some "ab12cd34", [], some [], some "*/5 * * * *"⟩)]) := by
  decide

/-- **C10** (confirmed).  With the lock acquired, a run whose cached record
source is missing, unparsable, or parses to an empty record list returns the
world untouched: no subscription is processed (history unchanged) and no
seen-set, ledger, status file, or subscription config is written. -/
theorem c10_no_data_no_writes (w : World) (env : RunEnv) :
    run_dispatcher false w { env with cache := CacheState.missing } = (w, HandleState.closedFile)
    ∧ run_dispatcher false w { env with cache := CacheState.unparsable } = (w, HandleState.closedFile)
    ∧ run_dispatcher false w { env with cache := CacheState.parsed [] } = (w, HandleState.closedFile) :=
  ⟨rfl, rfl, rfl⟩

end TenderScrape
